import Mathlib

/-!
Shallow embedding of the logging library (namespace `logging` in C++):
the level enumeration and its string conversions, the `Logger` facade,
the bounded `AsyncQueue`, `SocketOutput`, `LogRotator`, and the stats
collector of `apps/log_stats/main.cpp`.  Wall-clock time and the result
of the `send` system call are passed in as explicit parameters.
-/

namespace Logging

/-- `LogLevel` as declared in `include/logging/Logger.h`:
`DEBUG = 0, INFO = 1, WARNING = 2`. -/
inductive LogLevel where
  | DEBUG
  | INFO
  | WARNING
deriving DecidableEq

/-- The numeric value of a level per the header (`static_cast<int>`). -/
def LogLevel.toInt : LogLevel → Nat
  | .DEBUG => 0
  | .INFO => 1
  | .WARNING => 2

/-- The six enumerator names that the `switch`/`if` chains of
`src/src/Logger.cpp` (`logLevelToString`, `stringToLogLevel`) handle.
The header enum declares only `DEBUG`, `INFO`, `WARNING`; the cpp handles
`TRACE`, `ERROR` and `FATAL` in addition, so the cpp text is embedded over
this six-constructor type. -/
inductive CppLogLevel where
  | TRACE
  | DEBUG
  | INFO
  | WARNING
  | ERROR
  | FATAL
deriving DecidableEq

/-- Injection of the header levels into the levels of the cpp switch. -/
def LogLevel.toCpp : LogLevel → CppLogLevel
  | .DEBUG => .DEBUG
  | .INFO => .INFO
  | .WARNING => .WARNING

/-- ASCII model of `::toupper` as applied by `std::transform` in
`stringToLogLevel`. -/
def asciiToUpper (c : Char) : Char :=
  if 'a' ≤ c ∧ c ≤ 'z' then Char.ofNat (c.toNat - 32) else c

/-- `std::transform(upper.begin(), upper.end(), upper.begin(), ::toupper)`. -/
def strToUpper (s : String) : String :=
  String.mk (s.data.map asciiToUpper)

/-- `logLevelToString` from `src/src/Logger.cpp` (the `default` branch of the
source switch is unreachable over the enumerators and so has no case here). -/
def logLevelToString : CppLogLevel → String
  | .TRACE => "TRACE"
  | .DEBUG => "DEBUG"
  | .INFO => "INFO"
  | .WARNING => "WARNING"
  | .ERROR => "ERROR"
  | .FATAL => "FATAL"

/-- `stringToLogLevel` from `src/src/Logger.cpp`: upper-cases its argument and
compares against the six recognized names, defaulting to `INFO`. -/
def stringToLogLevel (levelStr : String) : CppLogLevel :=
  let upper := strToUpper levelStr
  if upper = "TRACE" then .TRACE
  else if upper = "DEBUG" then .DEBUG
  else if upper = "INFO" then .INFO
  else if upper = "WARNING" then .WARNING
  else if upper = "ERROR" then .ERROR
  else if upper = "FATAL" then .FATAL
  else .INFO

/-- `LoggingError` from `include/logging/Logger.h`. -/
inductive LoggingError where
  | SUCCESS
  | FILE_OPEN_FAILED
  | FILE_WRITE_FAILED
  | SOCKET_CONNECTION_FAILED
  | SOCKET_WRITE_FAILED
  | CONFIG_PARSE_ERROR
  | QUEUE_OVERFLOW
  | ROTATION_FAILED
deriving DecidableEq

/-- Numeric codes of `LoggingError` per the header. -/
def LoggingError.toInt : LoggingError → Nat
  | .SUCCESS => 0
  | .FILE_OPEN_FAILED => 1001
  | .FILE_WRITE_FAILED => 1002
  | .SOCKET_CONNECTION_FAILED => 2001
  | .SOCKET_WRITE_FAILED => 2002
  | .CONFIG_PARSE_ERROR => 3001
  | .QUEUE_OVERFLOW => 5001
  | .ROTATION_FAILED => 6001

/-- `LoggerConfig` from `include/logging/Logger.h`. -/
structure LoggerConfig where
  defaultLevel : LogLevel
  enableAsync : Bool
  asyncQueueSize : Nat
  maxFileSizeMB : Nat
  maxFiles : Nat
  enableRotation : Bool
  compressOldLogs : Bool
  timestampFormat : String
  reconnectIntervalMs : Int
  maxReconnectAttempts : Int

/-- The default member initializers of `LoggerConfig`. -/
def defaultLoggerConfig : LoggerConfig :=
  ⟨.INFO, false, 10000, 100, 10, true, false, "%Y-%m-%d %H:%M:%S", 5000, 10⟩

/-- Abstract model of a bound `LogOutput` backend: `isValid` is the value its
`isValid()` method currently reports, `writeLog` gives the boolean result its
`writeLog` method returns for a formatted message. -/
structure LogOutput where
  isValid : Bool
  writeLog : String → Bool

/-- The member state of `Logger` relevant to the synchronous path:
the owned backend, the threshold, the config and the last-error slot. -/
structure Logger where
  output_ : Option LogOutput
  defaultLevel_ : LogLevel
  config_ : LoggerConfig
  last_error_ : LoggingError
  last_error_message_ : String

/-- `Logger::formatMessage`, with `getCurrentTime()` passed in as `now`. -/
def Logger.formatMessage (message : String) (level : LogLevel) (now : String) :
    String :=
  "[" ++ now ++ "] " ++ "[" ++ logLevelToString level.toCpp ++ "] " ++ message

/-- Outcome of one `Logger::log(message, level)` call: the returned boolean,
the formatted message handed to the backend (`none` when `writeLog` was not
invoked), and the post-call member state. -/
structure LogCallResult where
  ret : Bool
  written : Option String
  post : Logger

/-- `Logger::log(message, level)` from `src/src/Logger.cpp`: filtered-out
messages return `true` without touching the backend; an absent or invalid
backend yields `false`; otherwise the formatted message is written and the
result of `writeLog` is returned.  No member of the logger is mutated. -/
def Logger.log (lg : Logger) (message : String) (level : LogLevel)
    (now : String) : LogCallResult :=
  if level.toInt < lg.defaultLevel_.toInt then
    ⟨true, none, lg⟩
  else
    match lg.output_ with
    | none => ⟨false, none, lg⟩
    | some o =>
      if o.isValid then
        let formattedMessage := Logger.formatMessage message level now
        ⟨o.writeLog formattedMessage, some formattedMessage, lg⟩
      else
        ⟨false, none, lg⟩

/-- `Logger::setDefaultLevel`: assigns `defaultLevel_` only. -/
def Logger.setDefaultLevel (lg : Logger) (level : LogLevel) : Logger :=
  ⟨lg.output_, level, lg.config_, lg.last_error_, lg.last_error_message_⟩

/-- `Logger::setConfig`: assigns `config_` and re-applies
`defaultLevel_ = config.defaultLevel`. -/
def Logger.setConfig (lg : Logger) (config : LoggerConfig) : Logger :=
  ⟨lg.output_, config.defaultLevel, config, lg.last_error_,
    lg.last_error_message_⟩

/-- `Logger::getLastError`. -/
def Logger.getLastError (lg : Logger) : LoggingError := lg.last_error_

/-- `Logger::getLastErrorMessage`. -/
def Logger.getLastErrorMessage (lg : Logger) : String := lg.last_error_message_

/-- `Logger::isValid`: `output_ && output_->isValid()`. -/
def Logger.isValid (lg : Logger) : Bool :=
  match lg.output_ with
  | none => false
  | some o => o.isValid

/-- `AsyncQueue<T>` member state from `include/logging/Logger.h`: the FIFO
contents (front of the list = front of the queue), the shutdown flag and the
capacity bound. -/
structure AsyncQueue (T : Type) where
  queue_ : List T
  shutdown_ : Bool
  max_size_ : Nat
deriving DecidableEq

/-- `AsyncQueue::push`: under the lock, reject when `size() >= max_size_`,
otherwise enqueue at the back and return `true`. -/
def AsyncQueue.push {T : Type} (q : AsyncQueue T) (item : T) :
    Bool × AsyncQueue T :=
  if q.max_size_ ≤ q.queue_.length then (false, q)
  else (true, ⟨q.queue_ ++ [item], q.shutdown_, q.max_size_⟩)

/-- Result of one `AsyncQueue::pop` call: `blocks` when the wait on the
condition variable does not return (empty queue, no shutdown, no producer),
`terminated` for the `false` return after shutdown on an empty queue,
`popped x` for a successful `true` return yielding the front item. -/
inductive PopResult (T : Type) where
  | blocks
  | terminated
  | popped (item : T)
deriving DecidableEq

/-- `AsyncQueue::pop`: wait until the queue is non-empty or shutdown is set;
return `false` when shutdown with an empty queue, else dequeue the front. -/
def AsyncQueue.pop {T : Type} (q : AsyncQueue T) :
    PopResult T × AsyncQueue T :=
  match q.queue_, q.shutdown_ with
  | [], false => (.blocks, q)
  | [], true => (.terminated, q)
  | x :: xs, s => (.popped x, ⟨xs, s, q.max_size_⟩)

/-- `AsyncQueue::shutdown`: store `true` into the flag and wake all waiters. -/
def AsyncQueue.shutdown {T : Type} (q : AsyncQueue T) : AsyncQueue T :=
  ⟨q.queue_, true, q.max_size_⟩

/-- Iterate `pop` up to `n` times, collecting the successfully popped items in
order; stops early when a call does not pop. -/
def AsyncQueue.popN {T : Type} : Nat → AsyncQueue T → List T × AsyncQueue T
  | 0, q => ([], q)
  | Nat.succ n, q =>
    match q.pop with
    | (PopResult.popped x, q1) =>
      let r := AsyncQueue.popN n q1
      (x :: r.1, r.2)
    | (_, q1) => ([], q1)

/-- Push each item of a list in turn, collecting the boolean results. -/
def AsyncQueue.pushList {T : Type} :
    AsyncQueue T → List T → List Bool × AsyncQueue T
  | q, [] => ([], q)
  | q, x :: xs =>
    let p := q.push x
    let r := AsyncQueue.pushList p.2 xs
    (p.1 :: r.1, r.2)

/-- `SocketOutput` member state: the socket descriptor and the connected
flag. -/
structure SocketOutput where
  socket_fd_ : Int
  connected_ : Bool
deriving DecidableEq

/-- `SocketOutput::isValid`: `connected_ && socket_fd_ >= 0`. -/
def SocketOutput.isValid (s : SocketOutput) : Bool :=
  s.connected_ && decide (0 ≤ s.socket_fd_)

/-- `SocketOutput::writeLog` from `src/src/Logger.cpp`: appends a newline and
performs exactly one `send`, whose return value is supplied as `sent`.
A negative `sent` clears `connected_` and returns `false`; otherwise the
result is `sent == message.length()` with the state untouched. -/
def SocketOutput.writeLog (s : SocketOutput) (formattedMessage : String)
    (sent : Int) : Bool × SocketOutput :=
  if ¬ s.connected_ ∨ s.socket_fd_ < 0 then (false, s)
  else
    let message := formattedMessage ++ "\n"
    if sent < 0 then (false, ⟨s.socket_fd_, false⟩)
    else (decide (sent = (message.length : Int)), s)

/-- Modelled from the spec: `LogRotator` is declared in
`include/logging/Logger.h` but its member functions are not implemented
anywhere under src.  Per the spec, the constructor stores
`maxSizeBytes = maxSizeMB * 1024 * 1024` into `max_size_bytes_`. -/
structure LogRotator where
  base_filename_ : String
  max_size_bytes_ : Nat
  max_files_ : Nat
  compress_ : Bool

/-- Modelled from the spec: the `LogRotator` constructor,
`LogRotator(base_filename, max_size_mb, max_files, compress)`. -/
def mkLogRotator (base_filename : String) (max_size_mb : Nat)
    (max_files : Nat) (compress : Bool) : LogRotator :=
  ⟨base_filename, max_size_mb * 1024 * 1024, max_files, compress⟩

/-- Modelled from the spec: `shouldRotate(currentSize)` returns
`currentSize >= maxSizeBytes`. -/
def LogRotator.shouldRotate (r : LogRotator) (current_size : Nat) : Bool :=
  decide (r.max_size_bytes_ ≤ current_size)

/-- `std::string::find(c, start)` over the character list: the least index
that is `>= start` and holds `c`. -/
def findAux : List Char → Char → Nat → Nat → Option Nat
  | [], _, _, _ => none
  | x :: xs, c, start, i =>
    if start ≤ i ∧ x = c then some i else findAux xs c start (i + 1)

/-- `rawMessage.find(c, start)`. -/
def strFind (s : List Char) (c : Char) (start : Nat) : Option Nat :=
  findAux s c start 0

/-- `std::string::find_first_not_of(set, start)`: the least index `>= start`
holding a character outside `set`. -/
def findFirstNotOfAux : List Char → List Char → Nat → Nat → Option Nat
  | [], _, _, _ => none
  | x :: xs, set, start, i =>
    if start ≤ i ∧ ¬ x ∈ set then some i
    else findFirstNotOfAux xs set start (i + 1)

/-- `rawMessage.find_first_not_of(set, start)`. -/
def strFindFirstNotOf (s : List Char) (set : List Char) (start : Nat) :
    Option Nat :=
  findFirstNotOfAux s set start 0

/-- `parseLogMessage` from `apps/log_stats/main.cpp`: locates the first two
bracket pairs, reads the level between the second pair through
`stringToLogLevel`, and takes the text after the fourth bracket (leading
spaces and tabs stripped) as the message.  Returns `none` where the C++
function returns `false`. -/
def parseLogMessage (rawMessage : String) :
    Option (String × CppLogLevel) :=
  let s := rawMessage.data
  match strFind s '[' 0 with
  | none => none
  | some firstBracket =>
    match strFind s ']' firstBracket with
    | none => none
    | some secondBracket =>
      match strFind s '[' secondBracket with
      | none => none
      | some thirdBracket =>
        match strFind s ']' thirdBracket with
        | none => none
        | some fourthBracket =>
          let levelStr :=
            String.mk ((s.drop (thirdBracket + 1)).take
              (fourthBracket - thirdBracket - 1))
          let level := stringToLogLevel levelStr
          let message :=
            match strFindFirstNotOf s [' ', '\t'] (fourthBracket + 1) with
            | none => ""
            | some messageStart => String.mk (s.drop messageStart)
          some (message, level)

/-- `SIZE_MAX`, the initializer of `minLength` (64-bit `size_t`). -/
def sizeMax : Nat := 2 ^ 64 - 1

/-- One hour in the millisecond time unit used for the timestamp model. -/
def hourMs : Nat := 3600000

/-- `LogStatistics` from `apps/log_stats/main.cpp`.  Timestamps are modelled
as milliseconds; `avgLength` (a `double` derived from `totalLength` and
`totalMessages`) and the report-printing clock fields are not modelled. -/
structure LogStatistics where
  totalMessages : Nat
  messagesByLevel : CppLogLevel → Nat
  messagesLastHour : Nat
  minLength : Nat
  maxLength : Nat
  totalLength : Nat
  timestamps : List Nat

/-- The default member initializers of `LogStatistics`. -/
def initialLogStatistics : LogStatistics :=
  ⟨0, fun _ => 0, 0, sizeMax, 0, 0, []⟩

/-- `LogStatistics::addMessage`, with the current time passed as `now`:
bumps the total and per-level counters, updates the length statistics,
appends the timestamp and prunes timestamps older than one hour. -/
def LogStatistics.addMessage (st : LogStatistics) (message : String)
    (level : CppLogLevel) (now : Nat) : LogStatistics :=
  let messageLength := message.length
  let hourAgo := now - hourMs
  let timestamps :=
    (st.timestamps ++ [now]).filter (fun t => decide (hourAgo ≤ t))
  { totalMessages := st.totalMessages + 1
    messagesByLevel := fun l =>
      if l = level then st.messagesByLevel l + 1 else st.messagesByLevel l
    messagesLastHour := timestamps.length
    minLength := min st.minLength messageLength
    maxLength := max st.maxLength messageLength
    totalLength := st.totalLength + messageLength
    timestamps := timestamps }

/-- One received line of the stats collector: parse it and, on success, feed
it to `addMessage` (per the receive loop of `apps/log_stats/main.cpp`). -/
def LogStatistics.processLine (st : LogStatistics) (now : Nat)
    (line : String) : LogStatistics :=
  match parseLogMessage line with
  | some (message, level) => st.addMessage message level now
  | none => st

/-- The three lines of the stats scenario, processed in order at times
0, 1 and 2 milliseconds. -/
def statsAfterThreeLines : LogStatistics :=
  ((initialLogStatistics.processLine 0
      "[2024-01-01 00:00:00.000] [INFO] hi").processLine 1
      "[2024-01-01 00:00:00.001] [WARNING] bye").processLine 2
      "[2024-01-01 00:00:00.002] [INFO] ok"

/-- A concrete logger as built by `Logger(filename, INFO)` with a healthy
backend whose writes succeed: used as the concrete instance in witnesses and
counterexamples. -/
def sampleLogger : Logger :=
  ⟨some ⟨true, fun _ => true⟩, .INFO, defaultLoggerConfig, .SUCCESS, ""⟩

/-- A concrete logger whose backend is absent, so every unfiltered `log`
call fails. -/
def invalidLogger : Logger :=
  ⟨none, .INFO, defaultLoggerConfig, .SUCCESS, ""⟩

/-! Helper lemmas about the queue operations. -/

/-- Popping as many times as there are items drains the queue in FIFO order,
for any value of the shutdown flag. -/
theorem popN_drain {T : Type} (l : List T) (s : Bool) (m : Nat) :
    AsyncQueue.popN l.length ⟨l, s, m⟩ = (l, ⟨[], s, m⟩) := by
  induction l with
  | nil => rfl
  | cons x xs ih => simp [AsyncQueue.popN, AsyncQueue.pop, ih]

/-- As long as the capacity is not exceeded, every push succeeds and the items
are appended in order. -/
theorem pushList_fills {T : Type} (xs : List T) (q : AsyncQueue T)
    (h : q.queue_.length + xs.length ≤ q.max_size_) :
    AsyncQueue.pushList q xs =
      (List.replicate xs.length true,
        ⟨q.queue_ ++ xs, q.shutdown_, q.max_size_⟩) := by
  induction xs generalizing q with
  | nil => simp [AsyncQueue.pushList]
  | cons x xs ih =>
    have hlt : ¬ q.max_size_ ≤ q.queue_.length := by
      simp only [List.length_cons] at h
      omega
    have hpush : q.push x =
        (true, ⟨q.queue_ ++ [x], q.shutdown_, q.max_size_⟩) := by
      simp [AsyncQueue.push, hlt]
    have ih2 := ih ⟨q.queue_ ++ [x], q.shutdown_, q.max_size_⟩
      (by simp only [List.length_append, List.length_cons, List.length_nil] at *; omega)
    simp [AsyncQueue.pushList, hpush, ih2, List.replicate_succ]

/-- `pushList` distributes over list append. -/
theorem pushList_append {T : Type} (q : AsyncQueue T) (as bs : List T) :
    AsyncQueue.pushList q (as ++ bs) =
      ((AsyncQueue.pushList q as).1 ++
          (AsyncQueue.pushList (AsyncQueue.pushList q as).2 bs).1,
        (AsyncQueue.pushList (AsyncQueue.pushList q as).2 bs).2) := by
  induction as generalizing q with
  | nil => simp [AsyncQueue.pushList]
  | cons a as ih => simp [AsyncQueue.pushList, ih]

/-! Claim theorems. -/

/-- Claim C2: `AsyncQueue::push` returns `false` and leaves the queue
unchanged when the current size is at least `max_size_`, and otherwise appends
the item and returns `true`; pushing `max_size + 1` items into an empty queue
rejects exactly the last push, and the accepted items are dequeued in FIFO
order. -/
theorem c2_push_backpressure (T : Type) :
    (∀ (q : AsyncQueue T) (x : T), q.max_size_ ≤ q.queue_.length →
      q.push x = (false, q)) ∧
    (∀ (q : AsyncQueue T) (x : T), q.queue_.length < q.max_size_ →
      q.push x = (true, ⟨q.queue_ ++ [x], q.shutdown_, q.max_size_⟩)) ∧
    (∀ (m : Nat) (xs : List T), xs.length = m + 1 →
      AsyncQueue.pushList ⟨[], false, m⟩ xs =
        (List.replicate m true ++ [false], ⟨xs.take m, false, m⟩) ∧
      (AsyncQueue.popN m (⟨xs.take m, false, m⟩ : AsyncQueue T)).1 = xs.take m) := by
  refine ⟨?_, ?_, ?_⟩
  · intro q x h
    simp [AsyncQueue.push, h]
  · intro q x h
    simp [AsyncQueue.push, Nat.not_le.mpr h]
  · intro m xs h
    have htake : (xs.take m).length = m := by
      simp only [List.length_take]
      omega
    have h1 := pushList_fills (xs.take m) ⟨[], false, m⟩
      (by simp [htake])
    have hdrop : ∃ z, xs.drop m = [z] := by
      apply List.length_eq_one.mp
      simp only [List.length_drop]
      omega
    obtain ⟨z, hz⟩ := hdrop
    have hfull : AsyncQueue.pushList ⟨xs.take m, false, m⟩ [z] =
        ([false], ⟨xs.take m, false, m⟩) := by
      simp [AsyncQueue.pushList, AsyncQueue.push, htake]
    have hpop := popN_drain (xs.take m) false m
    rw [htake] at hpop
    refine ⟨?_, by rw [hpop]⟩
    have hsplit : AsyncQueue.pushList (⟨[], false, m⟩ : AsyncQueue T) xs =
        AsyncQueue.pushList ⟨[], false, m⟩ (xs.take m ++ [z]) := by
      rw [← hz, List.take_append_drop]
    rw [hsplit, pushList_append, h1]
    simp [hfull, htake]

/-- Witness for C2 at capacity 2 and items `[10, 20, 30]`. -/
theorem c2_push_backpressure_witness :
    ([10, 20, 30] : List Nat).length = 2 + 1 ∧
    AsyncQueue.pushList ⟨[], false, 2⟩ ([10, 20, 30] : List Nat) =
      ([true, true, false], ⟨[10, 20], false, 2⟩) ∧
    (AsyncQueue.popN 2 (⟨[10, 20], false, 2⟩ : AsyncQueue Nat)).1 = [10, 20] := by
  have h := (c2_push_backpressure Nat).2.2 2 [10, 20, 30] (by decide)
  refine ⟨by decide, ?_, ?_⟩
  · rw [h.1]
    decide
  · simpa using h.2

/-- Claim C3: after `shutdown()` with K items queued, the next K `pop` calls
yield exactly those items in FIFO order, the (K+1)-th `pop` returns `false`
(`terminated`), and a second `shutdown()` changes nothing. -/
theorem c3_shutdown_drains (T : Type) (q : AsyncQueue T) :
    (q.shutdown.popN q.queue_.length).1 = q.queue_ ∧
    ((q.shutdown.popN q.queue_.length).2.pop).1 = PopResult.terminated ∧
    q.shutdown.shutdown = q.shutdown := by
  have h := popN_drain q.queue_ true q.max_size_
  refine ⟨?_, ?_, rfl⟩
  · show (AsyncQueue.popN q.queue_.length ⟨q.queue_, true, q.max_size_⟩).1 = q.queue_
    rw [h]
  · show ((AsyncQueue.popN q.queue_.length ⟨q.queue_, true, q.max_size_⟩).2.pop).1
        = PopResult.terminated
    rw [h]
    rfl

/-- Claim C10: `push` ignores the shutdown flag, so after `shutdown()` an item
still gets enqueued (and `push` returns `true`) whenever the size is below
`max_size_`. -/
theorem c10_push_after_shutdown (T : Type) (q : AsyncQueue T) (x : T)
    (h : q.queue_.length < q.max_size_) :
    q.shutdown.push x = (true, ⟨q.queue_ ++ [x], true, q.max_size_⟩) := by
  simp [AsyncQueue.shutdown, AsyncQueue.push, Nat.not_le.mpr h]

/-- Witness for C10: a one-element queue of capacity 2 accepts a push after
shutdown. -/
theorem c10_push_after_shutdown_witness :
    (⟨[1], false, 2⟩ : AsyncQueue Nat).queue_.length
        < (⟨[1], false, 2⟩ : AsyncQueue Nat).max_size_ ∧
    (⟨[1], false, 2⟩ : AsyncQueue Nat).shutdown.push 5 =
      (true, ⟨[1, 5], true, 2⟩) :=
  ⟨by decide, c10_push_after_shutdown Nat ⟨[1], false, 2⟩ 5 (by decide)⟩

/-- Claim C1: `Logger::log` writes to the backend iff the message level is at
least the threshold (numeric order DEBUG < INFO < WARNING) and the backend is
present and valid; a filtered-out message returns `true` without touching the
backend; an absent or invalid backend yields `false`; otherwise the result of
the backend `writeLog` call is returned. -/
theorem c1_level_filtering (lg : Logger) (message : String) (level : LogLevel)
    (now : String) :
    ((lg.log message level now).written.isSome
        = (decide (lg.defaultLevel_.toInt ≤ level.toInt) && lg.isValid)) ∧
    (level.toInt < lg.defaultLevel_.toInt →
      lg.log message level now = ⟨true, none, lg⟩) ∧
    (lg.defaultLevel_.toInt ≤ level.toInt → lg.isValid = false →
      (lg.log message level now).ret = false) ∧
    (∀ o : LogOutput, lg.defaultLevel_.toInt ≤ level.toInt →
      lg.output_ = some o → o.isValid = true →
      lg.log message level now =
        ⟨o.writeLog (Logger.formatMessage message level now),
          some (Logger.formatMessage message level now), lg⟩) := by
  refine ⟨?_, ?_, ?_, ?_⟩
  · by_cases hlt : level.toInt < lg.defaultLevel_.toInt
    · have hnle : ¬ lg.defaultLevel_.toInt ≤ level.toInt := by omega
      simp [Logger.log, hlt, hnle]
    · have hle := Nat.not_lt.mp hlt
      rcases houtput : lg.output_ with _ | o
      · simp [Logger.log, Logger.isValid, hlt, houtput]
      · by_cases hv : o.isValid
        · simp [Logger.log, Logger.isValid, hlt, houtput, hv, hle]
        · simp [Logger.log, Logger.isValid, hlt, houtput, hv]
  · intro hlt
    simp [Logger.log, hlt]
  · intro hle hval
    have hlt : ¬ level.toInt < lg.defaultLevel_.toInt := by omega
    rcases houtput : lg.output_ with _ | o
    · simp [Logger.log, hlt, houtput]
    · have hv : o.isValid = false := by
        simpa [Logger.isValid, houtput] using hval
      simp [Logger.log, hlt, houtput, hv]
  · intro o hle houtput hv
    have hlt : ¬ level.toInt < lg.defaultLevel_.toInt := by omega
    simp [Logger.log, hlt, houtput, hv]

/-- Witness for C1: an INFO-threshold logger with a healthy backend writes a
WARNING message and returns the backend result `true`. -/
theorem c1_level_filtering_witness :
    LogLevel.INFO.toInt ≤ LogLevel.WARNING.toInt ∧
    sampleLogger.output_ = some ⟨true, fun _ => true⟩ ∧
    (sampleLogger.log "msg" .WARNING "t").ret = true := by
  have h := (c1_level_filtering sampleLogger "msg" .WARNING "t").2.2.2
    ⟨true, fun _ => true⟩ (by decide) rfl rfl
  exact ⟨by decide, rfl, by rw [h]⟩

/-- Claim C5, counterexample: `setDefaultLevel(DEBUG)` on a logger whose
config holds `defaultLevel = INFO` leaves `defaultLevel_ = DEBUG` but
`config_.defaultLevel = INFO`, so the two fields are not equal after a
`setDefaultLevel` call. -/
theorem c5_counterexample :
    (sampleLogger.setDefaultLevel LogLevel.DEBUG).defaultLevel_ ≠
      (sampleLogger.setDefaultLevel LogLevel.DEBUG).config_.defaultLevel := by
  decide

/-- Claim C5, amended: after `setConfig(c)` the two fields agree (both equal
`c.defaultLevel`), but `setDefaultLevel(l)` assigns only `defaultLevel_` and
leaves `config_` unchanged. -/
theorem c5_amended_config_level_sync (lg : Logger) (c : LoggerConfig)
    (l : LogLevel) :
    ((lg.setConfig c).defaultLevel_ = (lg.setConfig c).config_.defaultLevel) ∧
    ((lg.setConfig c).defaultLevel_ = c.defaultLevel) ∧
    ((lg.setDefaultLevel l).defaultLevel_ = l) ∧
    ((lg.setDefaultLevel l).config_ = lg.config_) :=
  ⟨rfl, rfl, rfl, rfl⟩

/-- Claim C7, counterexample: a `log` call that fails (returns `false`,
backend absent) leaves the last-error slot exactly as it was
(`SUCCESS` and the empty message), so the failure did not overwrite it. -/
theorem c7_counterexample :
    (invalidLogger.log "m" .WARNING "t").ret = false ∧
    (invalidLogger.log "m" .WARNING "t").post.getLastError =
      LoggingError.SUCCESS ∧
    (invalidLogger.log "m" .WARNING "t").post.getLastErrorMessage = "" :=
  ⟨rfl, rfl, rfl⟩

/-- Claim C7, amended: no `Logger` operation writes the last-error slot:
`log` (failing or not), `setConfig` and `setDefaultLevel` all leave
`last_error_` and `last_error_message_` unchanged, and
`getLastError`/`getLastErrorMessage` merely read the current field values. -/
theorem c7_amended_last_error_untouched (lg : Logger) (message : String)
    (level : LogLevel) (now : String) (c : LoggerConfig) (l : LogLevel) :
    ((lg.log message level now).post = lg) ∧
    ((lg.log message level now).post.getLastError = lg.getLastError) ∧
    ((lg.log message level now).post.getLastErrorMessage
        = lg.getLastErrorMessage) ∧
    ((lg.setConfig c).getLastError = lg.getLastError) ∧
    ((lg.setDefaultLevel l).getLastError = lg.getLastError) := by
  have hpost : (lg.log message level now).post = lg := by
    unfold Logger.log
    by_cases hlt : level.toInt < lg.defaultLevel_.toInt
    · simp [hlt]
    · rcases h : lg.output_ with _ | o
      · simp [hlt, h]
      · by_cases hv : o.isValid
        · simp [hlt, h, hv]
        · simp [hlt, h, hv]
  exact ⟨hpost, by rw [hpost], by rw [hpost], rfl, rfl⟩

/-- Claim C6, counterexample: on a connected socket (fd 3), a partial send
(1 byte of the 2-byte message `"m\n"`) makes `writeLog` return `false` but
does not clear `connected_`: `isValid()` afterwards is still `true`, so a
partial send does not mark the connection invalid. -/
theorem c6_counterexample :
    ((⟨3, true⟩ : SocketOutput).writeLog "m" 1).1 = false ∧
    ((⟨3, true⟩ : SocketOutput).writeLog "m" 1).2.isValid = true := by
  decide

/-- Claim C6, amended: on a connected socket, a negative send result marks
the connection invalid and returns `false`; a partial send returns `false`
but leaves the state (and hence `isValid`) unchanged; a full send returns
`true`; `writeLog` performs its single send with no retry. -/
theorem c6_amended_socket_write (s : SocketOutput) (fm : String) (sent : Int)
    (hc : s.connected_ = true) (hf : 0 ≤ s.socket_fd_) :
    (sent < 0 →
      s.writeLog fm sent = (false, ⟨s.socket_fd_, false⟩) ∧
      (⟨s.socket_fd_, false⟩ : SocketOutput).isValid = false) ∧
    (0 ≤ sent → sent ≠ ((fm ++ "\n").length : Int) →
      s.writeLog fm sent = (false, s) ∧ s.isValid = true) ∧
    (sent = ((fm ++ "\n").length : Int) → s.writeLog fm sent = (true, s)) := by
  have hfd : ¬ s.socket_fd_ < 0 := Int.not_lt.mpr hf
  have hcond : ¬ (¬ (s.connected_ : Prop) ∨ s.socket_fd_ < 0) := by
    rintro (h1 | h2)
    · exact h1 (by rw [hc])
    · exact hfd h2
  have hunfold : s.writeLog fm sent =
      if sent < 0 then (false, ⟨s.socket_fd_, false⟩)
      else (decide (sent = ((fm ++ "\n").length : Int)), s) := by
    unfold SocketOutput.writeLog
    rw [if_neg hcond]
  refine ⟨fun hneg => ⟨?_, ?_⟩, fun hpos hne => ⟨?_, ?_⟩, fun heq => ?_⟩
  · rw [hunfold, if_pos hneg]
  · simp [SocketOutput.isValid]
  · rw [hunfold, if_neg (Int.not_lt.mpr hpos)]
    simp only [decide_eq_false hne]
  · simp [SocketOutput.isValid, hc, hf]
  · have h0 : ¬ sent < 0 := by
      rw [heq]
      omega
    rw [hunfold, if_neg h0]
    simp [heq]

/-- Witness for C6 (amended): fd 3, connected, send result -1. -/
theorem c6_amended_socket_write_witness :
    (⟨3, true⟩ : SocketOutput).connected_ = true ∧
    (0 : Int) ≤ (⟨3, true⟩ : SocketOutput).socket_fd_ ∧
    (-1 : Int) < 0 ∧
    (⟨3, true⟩ : SocketOutput).writeLog "m" (-1) = (false, ⟨3, false⟩) ∧
    (⟨(3 : Int), false⟩ : SocketOutput).isValid = false := by
  have h := (c6_amended_socket_write ⟨3, true⟩ "m" (-1) rfl (by decide)).1
    (by decide)
  exact ⟨rfl, by decide, by decide, h.1, h.2⟩

/-- Claim C8: for a `LogRotator` built with `max_size_mb = M`,
`shouldRotate(currentSize)` is `true` iff `currentSize >= M * 1024 * 1024`. -/
theorem c8_rotation_threshold (base : String) (max_size_mb max_files : Nat)
    (compress : Bool) (current_size : Nat) :
    (mkLogRotator base max_size_mb max_files compress).shouldRotate
        current_size = true ↔
      max_size_mb * 1024 * 1024 ≤ current_size := by
  simp [mkLogRotator, LogRotator.shouldRotate]

/-- Witness for C8: with 1 MB the boundary sits exactly at 1048576 bytes. -/
theorem c8_rotation_threshold_witness :
    (mkLogRotator "app.log" 1 3 false).shouldRotate 1048576 = true ∧
    ¬ (mkLogRotator "app.log" 1 3 false).shouldRotate 1048575 = true :=
  ⟨(c8_rotation_threshold "app.log" 1 3 false 1048576).mpr (by norm_num),
    fun h => by
      have h2 := (c8_rotation_threshold "app.log" 1 3 false 1048575).mp h
      norm_num at h2⟩

/-- Claim C9: processing the three scenario lines leaves the statistics at
total 3, INFO count 2, WARNING count 1, minimum message length 2 and maximum
message length 3. -/
theorem c9_stats_scenario :
    statsAfterThreeLines.totalMessages = 3 ∧
    statsAfterThreeLines.messagesByLevel CppLogLevel.INFO = 2 ∧
    statsAfterThreeLines.messagesByLevel CppLogLevel.WARNING = 1 ∧
    statsAfterThreeLines.minLength = 2 ∧
    statsAfterThreeLines.maxLength = 3 := by
  decide

/-- Claim C4: `stringToLogLevel` inverts `logLevelToString` on DEBUG, INFO
and WARNING; recognition is case-insensitive (only the upper-cased form of
the argument matters); and every string whose upper-cased form is none of the
recognized names maps to INFO. -/
theorem c4_level_string_round_trip :
    (stringToLogLevel (logLevelToString CppLogLevel.DEBUG) =
        CppLogLevel.DEBUG ∧
      stringToLogLevel (logLevelToString CppLogLevel.INFO) =
        CppLogLevel.INFO ∧
      stringToLogLevel (logLevelToString CppLogLevel.WARNING) =
        CppLogLevel.WARNING) ∧
    (∀ s t : String, strToUpper s = strToUpper t →
      stringToLogLevel s = stringToLogLevel t) ∧
    (∀ s : String,
      strToUpper s ∉
        (["TRACE", "DEBUG", "INFO", "WARNING", "ERROR", "FATAL"] :
          List String) →
      stringToLogLevel s = CppLogLevel.INFO) := by
  refine ⟨by decide, ?_, ?_⟩
  · intro s t h
    simp only [stringToLogLevel]
    rw [h]
  · intro s h
    simp only [List.mem_cons, List.not_mem_nil, or_false, not_or] at h
    obtain ⟨h1, h2, h3, h4, h5, h6⟩ := h
    simp [stringToLogLevel, h1, h2, h3, h4, h5, h6]

/-- Witness for C4: the unrecognized string "unknown" maps to INFO. -/
theorem c4_level_string_round_trip_witness :
    strToUpper "unknown" ∉
      (["TRACE", "DEBUG", "INFO", "WARNING", "ERROR", "FATAL"] :
        List String) ∧
    stringToLogLevel "unknown" = CppLogLevel.INFO :=
  ⟨by decide, c4_level_string_round_trip.2.2 "unknown" (by decide)⟩

end Logging
